import Mathlib

/-!
Shallow embedding of the astrological derivation engine of the HomeService
repository (`server/utils` and `server/services`), together with theorems
settling the spec claims about it.

Python floats are modelled as exact rationals; Python's `%` on numbers with a
positive divisor, `int()` truncation, and `round()` (banker's rounding) are
modelled explicitly below.
-/

set_option maxRecDepth 4000

namespace HomeService

/-- Python `x % y` on numbers (result has the sign of `y`; here `y > 0`). -/
def pymod (x y : ℚ) : ℚ := x - y * ⌊x / y⌋

/-- Python `int(x)`: truncation toward zero. -/
def pyint (x : ℚ) : ℤ := if 0 ≤ x then ⌊x⌋ else ⌈x⌉

/-- Round-half-to-even to an integer, as Python's `round` does on ties. -/
def roundHalfEven (x : ℚ) : ℤ :=
  let f := ⌊x⌋
  let r := x - (f : ℚ)
  if r < 1/2 then f
  else if 1/2 < r then f + 1
  else if f % 2 = 0 then f else f + 1

/-- Python `round(x, ndigits)` modelled on exact rationals. -/
def pyround (ndigits : ℕ) (x : ℚ) : ℚ :=
  (roundHalfEven (x * 10 ^ ndigits) : ℚ) / 10 ^ ndigits

theorem pymod_eq_fract (x y : ℚ) (hy : y ≠ 0) :
    pymod x y = y * Int.fract (x / y) := by
  unfold pymod
  rw [Int.fract, mul_sub, mul_comm y (x / y), div_mul_cancel₀ x hy]

theorem pymod_nonneg (x y : ℚ) (hy : 0 < y) : 0 ≤ pymod x y := by
  rw [pymod_eq_fract x y hy.ne.symm]
  exact mul_nonneg hy.le (Int.fract_nonneg _)

theorem pymod_lt (x y : ℚ) (hy : 0 < y) : pymod x y < y := by
  rw [pymod_eq_fract x y hy.ne.symm]
  calc y * Int.fract (x / y) < y * 1 :=
        (mul_lt_mul_left hy).mpr (Int.fract_lt_one _)
    _ = y := mul_one y

/-! ## Vedic aspects calculator (`server/utils/aspects_calculator.py`)

`planets_info` maps a planet name to its details; only the `'house'` entry is
consulted by the aspect functions, so the chart is embedded as an association
list from planet name to house number. -/

/-- `VedicAspectsCalculator.SPECIAL_ASPECTS` (the `'aspects'` lists). -/
def SPECIAL_ASPECTS (planet : String) : Option (List ℤ) :=
  if planet = "Mars" then some [4, 8, 7]
  else if planet = "Jupiter" then some [5, 9, 7]
  else if planet = "Saturn" then some [3, 10, 7]
  else none

/-- `VedicAspectsCalculator.get_standard_aspects`:
`((planet_house - 1 + 6) % 12) + 1`, house defaulting to 1. -/
def getStandardAspects (planetsInfo : List (String × ℤ)) (planet : String) :
    List ℤ :=
  let planetHouse := (planetsInfo.lookup planet).getD 1
  [((planetHouse - 1 + 6) % 12) + 1]

/-- `VedicAspectsCalculator.get_special_aspects`:
`[(planet_house - 1 + aspect) % 12 + 1 for aspect in special_aspects]`. -/
def getSpecialAspects (planetsInfo : List (String × ℤ)) (planet : String) :
    List ℤ :=
  match SPECIAL_ASPECTS planet with
  | some aspects =>
      let planetHouse := (planetsInfo.lookup planet).getD 1
      aspects.map (fun aspect => (planetHouse - 1 + aspect) % 12 + 1)
  | none => []

/-- The special-aspect houses the claim predicts: offsets `+3, +7` for Mars,
`+4, +8` for Jupiter, `+2, +9` for Saturn, as `((H-1+k) mod 12)+1`. -/
def claimedSpecialAspects (planet : String) (house : ℤ) : List ℤ :=
  let offsets : List ℤ :=
    if planet = "Mars" then [3, 7]
    else if planet = "Jupiter" then [4, 8]
    else if planet = "Saturn" then [2, 9]
    else []
  offsets.map (fun k => ((house - 1 + k) % 12) + 1)

/-! ## Dasha calculator (`server/services/dasha_calculator.py`) -/

/-- `DashaCalculator.DASHA_ORDER`. -/
def DASHA_ORDER : List String :=
  ["Ketu", "Venus", "Sun", "Moon", "Mars", "Rahu", "Jupiter", "Saturn",
   "Mercury"]

/-- `DashaCalculator.DASHA_DURATIONS` (years per ruling body). -/
def DASHA_DURATIONS (planet : String) : ℕ :=
  if planet = "Ketu" then 7
  else if planet = "Venus" then 20
  else if planet = "Sun" then 6
  else if planet = "Moon" then 10
  else if planet = "Mars" then 7
  else if planet = "Rahu" then 18
  else if planet = "Jupiter" then 16
  else if planet = "Saturn" then 19
  else if planet = "Mercury" then 17
  else 0

/-- `DashaCalculator.NAKSHATRA_LORDS`: the code's own lookup table of
nakshatra rulers (keys 0–8; comments name the nakshatras, e.g. 3 = Rohini). -/
def NAKSHATRA_LORDS (n : ℕ) : Option String :=
  if n = 0 then some "Ketu"
  else if n = 1 then some "Venus"
  else if n = 2 then some "Sun"
  else if n = 3 then some "Moon"
  else if n = 4 then some "Mars"
  else if n = 5 then some "Rahu"
  else if n = 6 then some "Jupiter"
  else if n = 7 then some "Saturn"
  else if n = 8 then some "Mercury"
  else none

/-- `DashaCalculator.get_nakshatra_from_longitude` (the numeric part):
normalize mod 360, divide by `360/27`, truncate, clamp to at most 26. -/
def nakshatraNumFromLongitude (longitude : ℚ) : ℕ :=
  let longitude := pymod longitude 360
  let nakshatraNum := pyint (longitude / (360 / 27))
  min nakshatraNum.toNat 26

/-- `DashaCalculator.get_dasha_lord_from_nakshatra`:
`lord_index = (nakshatra_num // 3) % 9; return DASHA_ORDER[lord_index]`. -/
def getDashaLordFromNakshatra (nakshatraNum : ℕ) : String :=
  DASHA_ORDER.getD ((nakshatraNum / 3) % 9) ""

/-- `DashaCalculator.calculate_dasha_balance` result triple. -/
structure DashaBalance where
  lord : String
  remainingYears : ℚ
  remainingMonths : ℚ
  deriving Repr

/-- `DashaCalculator.calculate_dasha_balance`. -/
def calculateDashaBalance (moonLongitude : ℚ) : DashaBalance :=
  let nakshatraNum := nakshatraNumFromLongitude moonLongitude
  let startingLord := getDashaLordFromNakshatra nakshatraNum
  let nakshatraStart : ℚ := nakshatraNum * (360 / 27)
  let nakshatraEnd : ℚ := (nakshatraNum + 1) * (360 / 27)
  let moonPos := (moonLongitude - nakshatraStart) / (nakshatraEnd - nakshatraStart)
  let moonPos := max 0 (min 1 moonPos)
  let startingDuration : ℚ := DASHA_DURATIONS startingLord
  let remainingYears := startingDuration * (1 - moonPos)
  ⟨startingLord, remainingYears, remainingYears * 12⟩

/-- One entry of the Maha Dasha timeline. -/
structure MahaDashaPeriod where
  planet : String
  duration : ℕ
  startYear : ℤ
  endYear : ℤ
  isCurrent : Bool
  remainingYears : Option ℚ
  deriving Repr

/-- The loop body of `calculate_maha_dasha_timeline`, carrying
`cumulative_years` and the timeline built so far. -/
def mahaDashaStep (startingIndex : ℕ) (b : DashaBalance)
    (acc : ℚ × List MahaDashaPeriod) (i : ℕ) : ℚ × List MahaDashaPeriod :=
  let dashaIndex := (startingIndex + i) % 9
  let planet := DASHA_ORDER.getD dashaIndex ""
  let duration := DASHA_DURATIONS planet
  let startYear := pyint acc.1
  let endYear := startYear + duration
  let isCurrent := i = 0
  let period : MahaDashaPeriod :=
    ⟨planet, duration, startYear, endYear, isCurrent,
     if i = 0 then some b.remainingYears else none⟩
  (acc.1 + duration, acc.2 ++ [period])

/-- `DashaCalculator.calculate_maha_dasha_timeline`. -/
def calculateMahaDashaTimeline (moonLongitude : ℚ) : List MahaDashaPeriod :=
  let b := calculateDashaBalance moonLongitude
  let currentAgeInDasha : ℚ := (DASHA_DURATIONS b.lord : ℚ) - b.remainingYears
  let startingIndex := DASHA_ORDER.indexOf b.lord
  ((List.range 9).foldl (mahaDashaStep startingIndex b)
    (-currentAgeInDasha, [])).2

/-! ## Strength calculator (`server/utils/strength_calculator.py`)

`planets_info` there maps a planet name to a dict with keys `'sign'`,
`'longitude'`, `'house'`, `'speed'`, `'retrograde'`; it is embedded as an
association list from name to a record holding those fields. -/

/-- One entry of `StrengthCalculator.planets_info`. -/
structure SPlanet where
  longitude : ℚ
  sign : ℤ
  house : ℤ
  speed : ℚ
  retrograde : Bool
  deriving Repr, DecidableEq

/-- `StrengthCalculator.OWN_SIGNS`. -/
def OWN_SIGNS (planet : String) : List ℤ :=
  if planet = "Sun" then [5]
  else if planet = "Moon" then [4]
  else if planet = "Mercury" then [3, 6]
  else if planet = "Venus" then [2, 7]
  else if planet = "Mars" then [1, 8]
  else if planet = "Jupiter" then [9, 12]
  else if planet = "Saturn" then [10, 11]
  else if planet = "Rahu" then [11]
  else if planet = "Ketu" then [8]
  else []

/-- `StrengthCalculator.DEBILITATED_SIGNS`. -/
def DEBILITATED_SIGNS (planet : String) : Option ℤ :=
  if planet = "Sun" then some 7
  else if planet = "Moon" then some 8
  else if planet = "Mercury" then some 12
  else if planet = "Venus" then some 6
  else if planet = "Mars" then some 4
  else if planet = "Jupiter" then some 10
  else if planet = "Saturn" then some 1
  else if planet = "Rahu" then some 9
  else if planet = "Ketu" then some 3
  else none

/-- `StrengthCalculator.DIRECTIONAL_STRENGTH` (the `'quadrant'` entries). -/
def DIRECTIONAL_QUADRANT (planet : String) : Option ℤ :=
  if planet = "Sun" then some 1
  else if planet = "Moon" then some 4
  else if planet = "Mars" then some 2
  else if planet = "Mercury" then some 1
  else if planet = "Jupiter" then some 1
  else if planet = "Venus" then some 2
  else if planet = "Saturn" then some 3
  else if planet = "Rahu" then some 3
  else if planet = "Ketu" then some 3
  else none

/-- `StrengthCalculator.NATURAL_STRENGTH_RANKING`, with the `.get(planet, 10)`
default applied by `_calculate_naisargika_bala`. -/
def NATURAL_STRENGTH_RANKING (planet : String) : ℚ :=
  if planet = "Sun" then 60
  else if planet = "Moon" then 51
  else if planet = "Venus" then 42
  else if planet = "Jupiter" then 34
  else if planet = "Mercury" then 25
  else if planet = "Mars" then 17
  else if planet = "Saturn" then 10
  else if planet = "Rahu" then 15
  else if planet = "Ketu" then 12
  else 10

/-- The benefic-planet list used by `_calculate_drishti_bala`. -/
def beneficPlanets : List String := ["Sun", "Moon", "Jupiter", "Venus", "Mercury"]

/-- The malefic-planet list used by `_calculate_drishti_bala`. -/
def maleficPlanets : List String := ["Mars", "Saturn", "Rahu", "Ketu"]

/-- `StrengthCalculator._calculate_sthana_bala`.  The second branch embeds the
Python conditional expression
`planet_sign == self.OWN_SIGNS.get(planet, [])[0] if self.OWN_SIGNS.get(planet) else None`,
which compares only against the FIRST own sign (and is skipped when the
planet has no own-sign entry). -/
def sthanaBala (planetsInfo : List (String × SPlanet)) (planet : String) : ℚ :=
  match planetsInfo.lookup planet with
  | none => 0
  | some d =>
    if d.sign ∈ ([5] : List ℤ) ∧ planet = "Sun" then 15
    else if (OWN_SIGNS planet).head? = some d.sign then 12
    else if DEBILITATED_SIGNS planet = some d.sign then 3
    else 9

/-- `StrengthCalculator._calculate_dig_bala`. -/
def digBala (planetsInfo : List (String × SPlanet)) (planet : String) : ℚ :=
  match planetsInfo.lookup planet with
  | none => 0
  | some d =>
    let house := d.house
    let q := DIRECTIONAL_QUADRANT planet
    if q = some 1 ∧ (house = 1 ∨ house = 10) then 15
    else if q = some 2 ∧ (house = 4 ∨ house = 5) then 15
    else if q = some 3 ∧ (house = 7 ∨ house = 8) then 15
    else if q = some 4 ∧ (house = 10 ∨ house = 11) then 15
    else 8

/-- `StrengthCalculator._calculate_kala_bala`; `hour` is `birth_date.hour`.
Note the code tests `6 <= hour <= 18`, inclusive on both ends. -/
def kalaBala (hour : ℕ) (planet : String) : ℚ :=
  let dayPlanets : List String := ["Sun", "Mars", "Jupiter"]
  let nightPlanets : List String := ["Moon", "Venus", "Saturn"]
  let isDaytime := 6 ≤ hour ∧ hour ≤ 18
  if planet ∈ dayPlanets ∧ isDaytime then 12
  else if planet ∈ nightPlanets ∧ ¬isDaytime then 12
  else 8

/-- `StrengthCalculator._calculate_chesta_bala`. -/
def chestaBala (planetsInfo : List (String × SPlanet)) (planet : String) : ℚ :=
  match planetsInfo.lookup planet with
  | none => 0
  | some d =>
    let baseStrength : ℚ := if ¬d.retrograde then 10 else 4
    let baseStrength :=
      if d.speed > 1 then baseStrength + 3
      else if d.speed < 1/10 then baseStrength - 2
      else baseStrength
    min baseStrength 15

/-- `StrengthCalculator._calculate_naisargika_bala`. -/
def naisargikaBala (planetsInfo : List (String × SPlanet)) (planet : String) : ℚ :=
  match planetsInfo.lookup planet with
  | none => 0
  | some _ =>
    let naturalRank := NATURAL_STRENGTH_RANKING planet
    pyround 2 (naturalRank / 60 * 15)

/-- `StrengthCalculator._calculate_drishti_bala`: base 8, `+2` per benefic and
`-2` per malefic other planet whose house is exactly 6 away (non-circular
`abs(other_house - planet_house) == 6`), clamped into `[0, 15]`. -/
def drishtiBala (planetsInfo : List (String × SPlanet)) (planet : String) : ℚ :=
  match planetsInfo.lookup planet with
  | none => 0
  | some d =>
    let baseStrength := planetsInfo.foldl (fun acc other =>
      if other.1 ≠ planet then
        if (other.2.house - d.house).natAbs = 6 then
          if other.1 ∈ beneficPlanets then acc + 2
          else if other.1 ∈ maleficPlanets then acc - 2
          else acc
        else acc
      else acc) (8 : ℚ)
    min (max baseStrength 0) 15

/-- The fields of the dict built by
`StrengthCalculator.calculate_planet_strength`. -/
structure StrengthProfile where
  totalStrength : ℚ
  strengthPercentage : ℚ
  sthana : ℚ
  dig : ℚ
  kala : ℚ
  chesta : ℚ
  naisargika : ℚ
  drishti : ℚ
  isStrong : Bool
  deriving Repr, DecidableEq

/-- `StrengthCalculator.calculate_planet_strength`: the six sub-scores, their
sum, and `strength_percentage = (total_strength / 60) * 100`, with the
`round(…, 2)` / `round(…, 1)` applied to the reported fields. -/
def calculatePlanetStrength (planetsInfo : List (String × SPlanet))
    (hour : ℕ) (planet : String) : StrengthProfile :=
  let sthana := sthanaBala planetsInfo planet
  let dig := digBala planetsInfo planet
  let kala := kalaBala hour planet
  let chesta := chestaBala planetsInfo planet
  let naisargika := naisargikaBala planetsInfo planet
  let drishti := drishtiBala planetsInfo planet
  let totalStrength := sthana + dig + kala + chesta + naisargika + drishti
  let strengthPercentage := totalStrength / 60 * 100
  { totalStrength := pyround 2 totalStrength
    strengthPercentage := pyround 1 strengthPercentage
    sthana := pyround 2 sthana
    dig := pyround 2 dig
    kala := pyround 2 kala
    chesta := pyround 2 chesta
    naisargika := pyround 2 naisargika
    drishti := pyround 2 drishti
    isStrong := strengthPercentage ≥ 70 }

/-! ## Varga calculator (`server/utils/varga_calculator.py`) -/

/-- `VargaCalculator.SIGNS` (also `zodiac_signs` in `astro_utils.py` and the
`signs` list in the transit calculator). -/
def SIGNS : List String :=
  ["Aries", "Taurus", "Gemini", "Cancer", "Leo", "Virgo",
   "Libra", "Scorpio", "Sagittarius", "Capricorn", "Aquarius", "Pisces"]

/-- `VargaCalculator._calculate_saptamsha_number`:
`degree %= 360; return int(degree / (360 / 7))`. -/
def saptamshaNumber (degree : ℚ) : ℤ :=
  let degree := pymod degree 360
  pyint (degree / (360 / 7))

/-- `VargaCalculator._calculate_saptamsha_sign`: reduces the degree mod 30,
computes the (unused) within-sign part, then indexes `SIGNS` with
`int(degree / 30) % 12` where `degree` is already the mod-30 remainder. -/
def saptamshaSign (degree : ℚ) (_sign : Option String) : String :=
  let degree := pymod degree 30
  let _saptamshaInSign := pyint (degree / 30 * 7)
  let signNum := pyint (degree / 30)
  SIGNS.getD (signNum % 12).toNat ""

/-- `VargaCalculator._get_saptamsha_interpretation`: the fixed 7-entry table
indexed by `saptamsha_num % 7`. -/
def getSaptamshaInterpretation (saptamshaNum : ℤ) : String :=
  let interpretations : List String :=
    ["Weak children - needs special care",
     "Average children - moderate support needed",
     "Good children - positive influence",
     "Excellent children - very favorable",
     "Very strong progeny - highly beneficial",
     "Extraordinary children - exceptional benefits",
     "Highly auspicious for children"]
  interpretations.getD (saptamshaNum % 7).toNat ""

/-- The D7 part index the claim describes: the planet's own 30° sign divided
into 7 equal parts of `30/7 ≈ 4.286°`, giving an index 0–6 within the sign. -/
def claimedSaptamshaIndex (degree : ℚ) : ℤ :=
  pyint (pymod degree 30 / (30 / 7))

/-! ## Planet position calculator (`server/utils/astro_utils.py`) -/

/-- `astro_utils.get_zodiac_sign`. -/
def getZodiacSign (longitude : ℚ) : String :=
  let longitude := pymod longitude 360
  let signIndex := pyint (longitude / 30)
  let signIndex := if signIndex < 0 ∨ signIndex > 11 then 0 else signIndex
  SIGNS.getD signIndex.toNat ""

/-- One entry of the `positions` dict built by
`astro_utils.calculate_planet_positions`. -/
structure PositionRecord where
  longitude : ℚ
  tropicalLongitude : ℚ
  speed : ℚ
  isRetrograde : Bool
  sign : String
  degreeInSign : ℚ
  deriving Repr, DecidableEq

/-- The record stored for a planet on the main path of
`calculate_planet_positions` (lines 661–668): sidereal longitude
`(tropical - ayanamsa) % 360`, retrograde flag `speed < 0`.  The ephemeris
speed defaults to 0 when the provider returns no speed component. -/
def makePositionRecord (tropicalLongitude ayanamsa speed : ℚ) : PositionRecord :=
  let siderealLongitude := pymod (tropicalLongitude - ayanamsa) 360
  { longitude := siderealLongitude
    tropicalLongitude := tropicalLongitude
    speed := speed
    isRetrograde := decide (speed < 0)
    sign := getZodiacSign siderealLongitude
    degreeInSign := pymod siderealLongitude 30 }

/-- The Ketu record derived from Rahu's in
`calculate_planet_positions` (lines 694–706): longitude `(rahu + 180) % 360`,
speed negated, and `is_retrograde = rahu_speed > 0`. -/
def deriveKetu (rahu : PositionRecord) : PositionRecord :=
  let ketuLongitude := pymod (rahu.longitude + 180) 360
  { longitude := ketuLongitude
    tropicalLongitude := pymod (rahu.tropicalLongitude + 180) 360
    speed := -rahu.speed
    isRetrograde := decide (rahu.speed > 0)
    sign := getZodiacSign ketuLongitude
    degreeInSign := pymod ketuLongitude 30 }

/-! ## Transit calculator (`server/services/transit_calculator.py`) -/

/-- `TransitCalculator._calculate_houses_apart`: sign-list indexing with
`min(diff, 12 - diff)`; a `ValueError` from an unknown sign name yields 0. -/
def calculateHousesApart (sign1 sign2 : String) : ℤ :=
  match SIGNS.indexOf? sign1, SIGNS.indexOf? sign2 with
  | some idx1, some idx2 =>
      let diff : ℤ := ((idx1 : ℤ) - (idx2 : ℤ)).natAbs
      min diff (12 - diff)
  | _, _ => 0

/-- The relation-to-natal suffix appended by
`TransitCalculator._get_transit_interpretation`. -/
inductive InterpSuffix where
  | sameSign
  | opposing
  | squareToBirth
  | trineToBirth
  | plain
  deriving Repr, DecidableEq

/-- The suffix-selection logic of `_get_transit_interpretation` (lines
252–262): same-sign check first, then `houses_apart == 7` for the opposition
remark, `4 or 8` for square, `5 or 9` for trine, else no suffix.  A `None` or
empty `birth_sign` is falsy in Python, yielding no suffix. -/
def transitInterpSuffix (currentSign : String) (birthSign : Option String) :
    InterpSuffix :=
  match birthSign with
  | none => .plain
  | some b =>
    if b = "" then .plain
    else if currentSign = b then .sameSign
    else
      let housesApart := calculateHousesApart currentSign b
      if housesApart = 7 then .opposing
      else if housesApart = 4 ∨ housesApart = 8 then .squareToBirth
      else if housesApart = 5 ∨ housesApart = 9 then .trineToBirth
      else .plain

/-! ## Helper lemmas -/

theorem floor_div_thirty_eq_zero (x : ℚ) (h0 : 0 ≤ x) (h30 : x < 30) :
    ⌊x / 30⌋ = 0 := by
  rw [Int.floor_eq_zero_iff]
  constructor
  · positivity
  · rw [div_lt_one (by norm_num : (0:ℚ) < 30)]
    simpa using h30

theorem calculateHousesApart_le_six (sign1 sign2 : String) :
    calculateHousesApart sign1 sign2 ≤ 6 := by
  unfold calculateHousesApart
  cases h1 : SIGNS.indexOf? sign1 with
  | none => simp
  | some idx1 =>
    cases h2 : SIGNS.indexOf? sign2 with
    | none => simp
    | some idx2 =>
      simp only []
      rcases le_or_lt (((idx1 : ℤ) - (idx2 : ℤ)).natAbs : ℤ) 6 with h | h
      · exact le_trans (min_le_left _ _) h
      · exact le_trans (min_le_right _ _) (by omega)

/-! ## Claim theorems -/

/-- Claim C1 (code bug): for Mars in house 1, the special-aspect houses the
code returns are `[5, 9, 8]` — offsets `+4, +8, +7` — whereas the claim (and
the calculator's own docstring, "Mars: aspects 4th, 8th, and 7th houses",
read with the inclusive counting its `get_standard_aspects` uses for the 7th)
gives houses `[4, 8]` beyond the standard 7th-house aspect at house 7. -/
theorem c1_special_aspects_off_by_one :
    getSpecialAspects [("Mars", 1)] "Mars" = [5, 9, 8] ∧
    claimedSpecialAspects "Mars" 1 = [4, 8] ∧
    getStandardAspects [("Mars", 1)] "Mars" = [7] ∧
    (4 : ℤ) ∉ getSpecialAspects [("Mars", 1)] "Mars" := by
  decide

/-- Claim C3 (code bug): Moon longitude 45.0° does give nakshatra segment 3,
but `get_dasha_lord_from_nakshatra` computes `(3 // 3) % 9 = 1` and returns
Venus, while the claim — and the calculator's own `NAKSHATRA_LORDS` table,
which lists segment 3 (Rohini) — says Moon. -/
theorem c3_dasha_lord_disagrees_with_table :
    nakshatraNumFromLongitude 45 = 3 ∧
    getDashaLordFromNakshatra 3 = "Venus" ∧
    NAKSHATRA_LORDS 3 = some "Moon" := by
  refine ⟨?_, by decide, by decide⟩
  norm_num [nakshatraNumFromLongitude, pymod, pyint]
  decide

/-- Claim C5 (code bug): `_calculate_saptamsha_number` divides the whole
zodiac by `360/7 ≈ 51.43°` instead of the planet's 30° sign into 7 parts of
`30/7 ≈ 4.286°` as the claim — and the chart's own `part_size: 30/7` field and
docstring — state.  At longitude 25° the code yields part 0 (and the first
interpretation string), while the sign-division index is 5. -/
theorem c5_saptamsha_number_divides_zodiac :
    saptamshaNumber 25 = 0 ∧
    claimedSaptamshaIndex 25 = 5 ∧
    getSaptamshaInterpretation (saptamshaNumber 25) =
      "Weak children - needs special care" := by
  have h0 : saptamshaNumber 25 = 0 := by
    norm_num [saptamshaNumber, pymod, pyint]
  have h5 : claimedSaptamshaIndex 25 = 5 := by
    norm_num [claimedSaptamshaIndex, pymod, pyint]
  refine ⟨h0, h5, ?_⟩
  rw [h0]
  decide

/-- Claim C6 (confirmed): for every input degree and any sign argument,
`_calculate_saptamsha_sign` returns the constant "Aries": it reduces the
degree mod 30 and then integer-divides the remainder by 30, so the sign index
is always 0. -/
theorem c6_saptamsha_sign_always_aries (degree : ℚ) (sign : Option String) :
    saptamshaSign degree sign = "Aries" := by
  unfold saptamshaSign
  have h0 : (0:ℚ) ≤ pymod degree 30 := pymod_nonneg _ _ (by norm_num)
  have h30 : pymod degree 30 < 30 := pymod_lt _ _ (by norm_num)
  have hfloor : ⌊pymod degree 30 / 30⌋ = 0 := floor_div_thirty_eq_zero _ h0 h30
  have hdiv : (0:ℚ) ≤ pymod degree 30 / 30 := by positivity
  simp only [pyint, if_pos hdiv, hfloor]
  decide

/-- Claim C10 (code bug): the houses-apart helper returns the cyclic minimum
distance — 6 for the exactly opposite pair Aries/Libra — but the transit
interpretation tests `houses_apart == 7` for the opposition remark, a value
the helper can never produce, so no interpretation ever carries the
opposition annotation, contrary to the claim. -/
theorem c10_opposition_branch_unreachable :
    calculateHousesApart "Aries" "Libra" = 6 ∧
    transitInterpSuffix "Aries" (some "Libra") = InterpSuffix.plain ∧
    ∀ currentSign birthSign,
      transitInterpSuffix currentSign birthSign ≠ InterpSuffix.opposing := by
  refine ⟨by decide, by decide, ?_⟩
  intro currentSign birthSign
  unfold transitInterpSuffix
  cases birthSign with
  | none => simp
  | some b =>
    have h7 : calculateHousesApart currentSign b ≠ 7 := by
      have := calculateHousesApart_le_six currentSign b
      omega
    by_cases hb : b = ""
    · simp [hb]
    · by_cases hcb : currentSign = b
      · simp [hb, hcb]
      · simp only [if_neg hb, if_neg hcb, if_neg h7]
        split_ifs <;> simp

/-- The day-planet and night-planet lists of `_calculate_kala_bala` share no
planet. -/
theorem day_night_disjoint {p : String}
    (hd : p ∈ (["Sun", "Mars", "Jupiter"] : List String))
    (hn : p ∈ (["Moon", "Venus", "Saturn"] : List String)) : False := by
  simp only [List.mem_cons, List.not_mem_nil, or_false] at hd hn
  rcases hd with rfl | rfl | rfl <;> simp at hn

/-- The Kala rule as the amended claim states it: diurnal planets score 12
exactly when the birth hour lies in the closed interval [6, 18], nocturnal
planets score 12 exactly when it lies outside that interval, everyone else
scores 8. -/
def kalaSpecAmended (hour : ℕ) (planet : String) : ℚ :=
  if planet ∈ (["Sun", "Mars", "Jupiter"] : List String) then
    if 6 ≤ hour ∧ hour ≤ 18 then 12 else 8
  else if planet ∈ (["Moon", "Venus", "Saturn"] : List String) then
    if 6 ≤ hour ∧ hour ≤ 18 then 8 else 12
  else 8

/-- Claim C7 counterexample: at birth hour 18 — outside the claimed range
[6, 18) — the code still treats the chart as diurnal (`6 <= hour <= 18`), so
Sun scores 12 where the claim says 8, and Moon scores 8 where the claim
says 12. -/
theorem c7_hour_18_counterexample :
    kalaBala 18 "Sun" = 12 ∧ kalaBala 18 "Moon" = 8 ∧
    ¬(6 ≤ 18 ∧ (18:ℕ) < 18) := by
  refine ⟨by simp [kalaBala], by simp [kalaBala], by omega⟩

/-- Claim C7 (corrected): the Kala sub-score follows the claimed
day/night rule with the daytime interval amended from [6, 18) to the
inclusive [6, 18] the code actually tests. -/
theorem c7_kala_day_night_rule (hour : ℕ) (planet : String) :
    kalaBala hour planet = kalaSpecAmended hour planet := by
  by_cases hd : planet ∈ (["Sun", "Mars", "Jupiter"] : List String)
  · by_cases hn : planet ∈ (["Moon", "Venus", "Saturn"] : List String)
    · exact (day_night_disjoint hd hn).elim
    · by_cases hh : 6 ≤ hour ∧ hour ≤ 18 <;>
        simp [kalaBala, kalaSpecAmended, hd, hn, hh]
  · by_cases hn : planet ∈ (["Moon", "Venus", "Saturn"] : List String) <;>
      by_cases hh : 6 ≤ hour ∧ hour ≤ 18 <;>
        simp [kalaBala, kalaSpecAmended, hd, hn, hh]

/-- Claim C9 counterexample: when the ephemeris yields no speed component the
code stores speed 0 for the ascending node, making Rahu's retrograde flag
(`speed < 0`) false and Ketu's (`speed > 0`) also false — not its logical
negation. -/
theorem c9_zero_speed_counterexample :
    (deriveKetu (makePositionRecord 100 24 0)).isRetrograde
      ≠ !(makePositionRecord 100 24 0).isRetrograde := by
  simp [deriveKetu, makePositionRecord]

/-- Claim C9 (corrected): Ketu's longitude is always
`(rahu + 180) mod 360` and its speed is always the negation of Rahu's; its
retrograde flag is the logical negation of Rahu's whenever Rahu's speed is
nonzero (at speed exactly 0 both flags are false). -/
theorem c9_ketu_derivation (rahu : PositionRecord)
    (hflag : rahu.isRetrograde = decide (rahu.speed < 0))
    (hspeed : rahu.speed ≠ 0) :
    (deriveKetu rahu).longitude = pymod (rahu.longitude + 180) 360 ∧
    (deriveKetu rahu).speed = -rahu.speed ∧
    (deriveKetu rahu).isRetrograde = !rahu.isRetrograde := by
  refine ⟨rfl, rfl, ?_⟩
  rw [hflag]
  rcases lt_or_gt_of_ne hspeed with h | h
  · have h1 : ¬(rahu.speed > 0) := asymm h
    simp [deriveKetu, h, h1]
  · have h1 : ¬(rahu.speed < 0) := asymm h
    simp [deriveKetu, h, h1]

/-- Witness for `c9_ketu_derivation` at a retrograde ascending node with
speed -1/20 degrees per day. -/
theorem c9_ketu_derivation_witness :
    (deriveKetu (makePositionRecord 100 24 (-1/20))).isRetrograde
      = !(makePositionRecord 100 24 (-1/20)).isRetrograde :=
  (c9_ketu_derivation (makePositionRecord 100 24 (-1/20)) rfl
    (by norm_num [makePositionRecord])).2.2

/-- Claim C4 counterexample: Moon's sign list is `[4]` (Cancer), yet Moon in
Cancer scores 12, not the claimed 15; Virgo (6) is in Mercury's own-sign set,
yet Mercury in Virgo scores the neutral 9 because the code compares only
against the FIRST own sign. -/
theorem c4_own_sign_counterexample :
    (4 : ℤ) ∈ OWN_SIGNS "Moon" ∧
    sthanaBala [("Moon", ⟨100, 4, 1, 1, false⟩)] "Moon" = 12 ∧
    (6 : ℤ) ∈ OWN_SIGNS "Mercury" ∧
    sthanaBala [("Mercury", ⟨160, 6, 1, 1, false⟩)] "Mercury" = 9 := by
  refine ⟨by decide, rfl, by decide, rfl⟩

/-- Claim C4 (corrected): the Sthana sub-score is 15 only for Sun in Leo;
otherwise it is 12 when the planet's sign equals the FIRST entry of its
own-sign list (any further own sign falls through to the neutral 9), 3 when
the sign equals the debilitated sign, and 9 otherwise. -/
theorem c4_sthana_rule (chart : List (String × SPlanet)) (planet : String)
    (d : SPlanet) (h : chart.lookup planet = some d) :
    sthanaBala chart planet =
      if planet = "Sun" ∧ d.sign = 5 then 15
      else if (OWN_SIGNS planet).head? = some d.sign then 12
      else if DEBILITATED_SIGNS planet = some d.sign then 3
      else 9 := by
  simp only [sthanaBala, h, List.mem_singleton]
  rw [if_congr and_comm rfl rfl]

/-- Witness for `c4_sthana_rule`: Moon in Cancer (sign 4). -/
theorem c4_sthana_rule_witness :
    sthanaBala [("Moon", ⟨100, 4, 7, 1, false⟩)] "Moon" =
      if ("Moon" = "Sun" ∧ (4:ℤ) = 5) then 15
      else if (OWN_SIGNS "Moon").head? = some 4 then 12
      else if DEBILITATED_SIGNS "Moon" = some 4 then 3
      else 9 :=
  c4_sthana_rule [("Moon", ⟨100, 4, 7, 1, false⟩)] "Moon"
    ⟨100, 4, 7, 1, false⟩ rfl

/-- A chart on which the strength calculator's total escapes [0, 60]:
Sun in Leo in house 1 moving 2°/day, with four benefic planets in house 7
(each exactly 6 houses from Sun's house). -/
def chartC2 : List (String × SPlanet) :=
  [("Sun", ⟨130, 5, 1, 2, false⟩),
   ("Moon", ⟨100, 4, 7, 12, false⟩),
   ("Jupiter", ⟨200, 7, 7, 1/5, false⟩),
   ("Venus", ⟨300, 10, 7, 6/5, false⟩),
   ("Mercury", ⟨50, 2, 7, 3/2, false⟩)]

/-- Claim C2 (code bug): on `chartC2` at birth hour 12 the six sub-scores of
Sun are 15, 15, 12, 13, 15, 15, so the reported total is 85 — outside the
claimed (and module-docstring-documented) range [0, 60] — and the reported
percentage is 141.7, which also differs from `total/60*100 = 141.66…`
because of the 1-decimal rounding. -/
theorem c2_total_exceeds_sixty :
    (calculatePlanetStrength chartC2 12 "Sun").totalStrength = 85 ∧
    ¬((calculatePlanetStrength chartC2 12 "Sun").totalStrength ≤ 60) ∧
    (calculatePlanetStrength chartC2 12 "Sun").strengthPercentage = 1417/10 ∧
    (calculatePlanetStrength chartC2 12 "Sun").strengthPercentage
      ≠ (calculatePlanetStrength chartC2 12 "Sun").totalStrength / 60 * 100 := by
  have hl : chartC2.lookup "Sun" = some ⟨130, 5, 1, 2, false⟩ := rfl
  have hsthana : sthanaBala chartC2 "Sun" = 15 := rfl
  have hdig : digBala chartC2 "Sun" = 15 := rfl
  have hkala : kalaBala 12 "Sun" = 12 := rfl
  have hchesta : chestaBala chartC2 "Sun" = 13 := by
    simp only [chestaBala, hl]
    norm_num [min_def]
  have hnais : naisargikaBala chartC2 "Sun" = 15 := by
    simp only [naisargikaBala, hl]
    norm_num [NATURAL_STRENGTH_RANKING, pyround, roundHalfEven]
  have hdrishti : drishtiBala chartC2 "Sun" = 15 := by
    simp [drishtiBala, hl, chartC2, beneficPlanets, maleficPlanets]
    norm_num [min_def, max_def]
  have htotal : (calculatePlanetStrength chartC2 12 "Sun").totalStrength = 85 := by
    simp only [calculatePlanetStrength, hsthana, hdig, hkala, hchesta, hnais,
      hdrishti]
    norm_num [pyround, roundHalfEven]
  have hpct : (calculatePlanetStrength chartC2 12 "Sun").strengthPercentage
      = 1417/10 := by
    simp only [calculatePlanetStrength, hsthana, hdig, hkala, hchesta, hnais,
      hdrishti]
    norm_num [pyround, roundHalfEven]
  refine ⟨htotal, ?_, hpct, ?_⟩
  · rw [htotal]; norm_num
  · rw [htotal, hpct]; norm_num

/-- The planets of the timeline fold depend only on the loop indices, not on
the rational accumulator. -/
theorem foldl_timeline_map_planet (s : ℕ) (b : DashaBalance) (l : List ℕ) :
    ∀ (cum : ℚ) (tl : List MahaDashaPeriod),
      ((l.foldl (mahaDashaStep s b) (cum, tl)).2).map MahaDashaPeriod.planet
        = tl.map MahaDashaPeriod.planet
          ++ l.map (fun i => DASHA_ORDER.getD ((s + i) % 9) "") := by
  induction l with
  | nil => intro cum tl; simp
  | cons i rest ih =>
      intro cum tl
      simp only [List.foldl_cons, List.map_cons]
      rw [ih]
      simp [mahaDashaStep]

/-- The durations of the timeline fold likewise depend only on the loop
indices. -/
theorem foldl_timeline_map_duration (s : ℕ) (b : DashaBalance) (l : List ℕ) :
    ∀ (cum : ℚ) (tl : List MahaDashaPeriod),
      ((l.foldl (mahaDashaStep s b) (cum, tl)).2).map MahaDashaPeriod.duration
        = tl.map MahaDashaPeriod.duration
          ++ l.map (fun i => DASHA_DURATIONS (DASHA_ORDER.getD ((s + i) % 9) "")) := by
  induction l with
  | nil => intro cum tl; simp
  | cons i rest ih =>
      intro cum tl
      simp only [List.foldl_cons, List.map_cons]
      rw [ih]
      simp [mahaDashaStep]

/-- Looking up an entry of `DASHA_ORDER` by value recovers its index. -/
theorem dashaOrder_indexOf_getD (k : Fin 9) :
    DASHA_ORDER.indexOf (DASHA_ORDER.getD k.val "") = k.val := by
  fin_cases k <;> decide

/-- Any rotation of the nine Dasha durations sums to 120 years. -/
theorem dashaOrder_rotation_sum (s : Fin 9) :
    ((List.range 9).map
      (fun i => DASHA_DURATIONS (DASHA_ORDER.getD ((s.val + i) % 9) ""))).sum
      = 120 := by
  fin_cases s <;> decide

/-- Claim C8 (confirmed): for any Moon longitude the generated MahaDasha
timeline has exactly 9 periods, their durations sum to exactly 120 years,
and the sequence of ruling bodies is the rotation of the canonical order
Ketu, Venus, Sun, Moon, Mars, Rahu, Jupiter, Saturn, Mercury that starts at
the computed starting lord. -/
theorem c8_timeline_cycle_closure (moonLongitude : ℚ) :
    (calculateMahaDashaTimeline moonLongitude).length = 9 ∧
    ((calculateMahaDashaTimeline moonLongitude).map
      MahaDashaPeriod.duration).sum = 120 ∧
    ∃ k, k < 9 ∧
      (calculateMahaDashaTimeline moonLongitude).map MahaDashaPeriod.planet
        = (List.range 9).map (fun i => DASHA_ORDER.getD ((k + i) % 9) "") := by
  have hlord : (calculateDashaBalance moonLongitude).lord
      = DASHA_ORDER.getD
          ((nakshatraNumFromLongitude moonLongitude / 3) % 9) "" := rfl
  set n := nakshatraNumFromLongitude moonLongitude with hn
  have hk9 : (n / 3) % 9 < 9 := Nat.mod_lt _ (by norm_num)
  have hidx : DASHA_ORDER.indexOf (calculateDashaBalance moonLongitude).lord
      = (n / 3) % 9 := by
    rw [hlord]
    exact dashaOrder_indexOf_getD ⟨(n / 3) % 9, hk9⟩
  have hplanets : (calculateMahaDashaTimeline moonLongitude).map
      MahaDashaPeriod.planet
      = (List.range 9).map
          (fun i => DASHA_ORDER.getD (((n / 3) % 9 + i) % 9) "") := by
    unfold calculateMahaDashaTimeline
    rw [foldl_timeline_map_planet, hidx]
    simp
  have hdurs : (calculateMahaDashaTimeline moonLongitude).map
      MahaDashaPeriod.duration
      = (List.range 9).map
          (fun i => DASHA_DURATIONS
            (DASHA_ORDER.getD (((n / 3) % 9 + i) % 9) "")) := by
    unfold calculateMahaDashaTimeline
    rw [foldl_timeline_map_duration, hidx]
    simp
  refine ⟨?_, ?_, (n / 3) % 9, hk9, hplanets⟩
  · have := congrArg List.length hplanets
    simpa using this
  · rw [hdurs]
    exact dashaOrder_rotation_sum ⟨(n / 3) % 9, hk9⟩

end HomeService
